import Mathlib

/-
Verification of the MCP client adapter (stdio / Streamable HTTP transports).

Shallow embedding of the Python modules:
  mcp_client_fastmcp/base_client.py  (BaseMCPClient)
  mcp_client/http_client.py          (HttpMCPClient, get_http_mcp_tools_info,
                                      create_http_mcp_tools)
  mcp_client/stdio_client.py         (get_stdio_mcp_tools_info,
                                      create_stdio_mcp_tools)
  mcp_client/mcp_tools_factory.py    (create_mcp_tools)

BaseMCPClient and HttpMCPClient duplicate execute_query,
normalize_tool_list, build_arguments and extract_response_text verbatim;
one embedding covers both. Python exceptions are modelled with
Except String; the remote server and the transport library are modelled
as an environment of possible outcomes (TransportBehavior).
-/

namespace MCPSpec

/-- An input schema as the client reads it: the value of the key
"required" (ordered list of parameter names, default empty) and the keys
of "properties" in declaration order (default empty). A Python empty
dict and a dict missing either key both read as the empty lists. -/
structure InputSchema where
  required : List String
  properties : List String
deriving DecidableEq, Repr

def emptySchema : InputSchema := ⟨[], []⟩

/-- A tool object returned by list_tools. Fields read with
hasattr/getattr are Options; strRepr models str(tool). -/
structure MCPTool where
  name : Option String
  description : Option String
  inputSchema : Option InputSchema
  strRepr : String
deriving DecidableEq, Repr

/-- tool.name if hasattr(tool, "name") else str(tool) -/
def toolName (tool : MCPTool) : String :=
  match tool.name with
  | some n => n
  | none => tool.strRepr

/-- tool.inputSchema if hasattr(tool, "inputSchema") else empty dict -/
def schemaOf (tool : MCPTool) : InputSchema :=
  match tool.inputSchema with
  | some s => s
  | none => emptySchema

/-- The three possible shapes of the list_tools return value: an object
with a tools member, a bare list, or anything else (carrying only its
rendering). -/
inductive ToolsResponse where
  | withToolsAttr (tools : List MCPTool)
  | bareList (tools : List MCPTool)
  | otherShape (rendering : String)
deriving DecidableEq, Repr

/-- BaseMCPClient normalize_tool_list / HttpMCPClient normalize_tool_list:
the tools member when present, the list itself when it is a list, else
the empty list. -/
def normalize_tool_list : ToolsResponse → List MCPTool
  | ToolsResponse.withToolsAttr l => l
  | ToolsResponse.bareList l => l
  | ToolsResponse.otherShape _ => []

def commonParams : List String := ["query", "prompt", "input", "text", "question"]

def schemaResolutionErrorMsg : String := "MCPツールのスキーマ情報を取得できませんでした。"

/-- The body of build_arguments on the extracted schema (the Python
locals required_params and properties): first required parameter; else
the first common parameter name present in properties; else the first
property key; else raise ValueError. The produced dict maps the chosen
name to the raw query. -/
def build_arguments_from (input_schema : InputSchema) (query : String) :
    Except String (List (String × String)) :=
  match input_schema.required with
  | first_param :: _ => Except.ok [(first_param, query)]
  | [] =>
    match commonParams.find? (fun param => input_schema.properties.contains param) with
    | some used_param => Except.ok [(used_param, query)]
    | none =>
      match input_schema.properties with
      | first_property :: _ => Except.ok [(first_property, query)]
      | [] => Except.error schemaResolutionErrorMsg

/-- BaseMCPClient build_arguments / HttpMCPClient build_arguments:
extract the schema of the tool and run the parameter chain. -/
def build_arguments (tool : MCPTool) (query : String) :
    Except String (List (String × String)) :=
  build_arguments_from (schemaOf tool) query

/-- One unit of a tool call response: either it has a text attribute or
it is rendered with str. -/
inductive ContentBlock where
  | textBlock (text : String)
  | otherBlock (rendering : String)
deriving DecidableEq, Repr

/-- content.text if hasattr(content, "text") else str(content) -/
def blockText : ContentBlock → String
  | ContentBlock.textBlock t => t
  | ContentBlock.otherBlock r => r

/-- A tool call result; the empty list models both an empty and an
absent content member (both falsy in Python). -/
structure ToolResult where
  content : List ContentBlock
deriving DecidableEq, Repr

def emptyResponseMsg : String := "MCPサーバーからの応答が空でした。"

/-- BaseMCPClient extract_response_text / HttpMCPClient
extract_response_text: newline-joined block texts, or the fixed
empty-response message when content is falsy. -/
def extract_response_text (result : ToolResult) : String :=
  match result.content with
  | [] => emptyResponseMsg
  | blocks => String.intercalate "\n" (blocks.map blockText)

/-- The outcomes the transport and remote server can produce during one
query: creating/entering the connection, list_tools, and call_tool for a
given tool name and argument dict. Except.error models a raised
exception carrying str(e). -/
structure TransportBehavior where
  connect : Except String Unit
  listTools : Except String ToolsResponse
  callTool : String → List (String × String) → Except String ToolResult

def noToolsMsg : String := "MCPサーバーに利用可能なツールが見つかりませんでした。"

def connectionErrorMarker : String := "MCPサーバーへの接続エラー: "

/-- The body of the try block of execute_query: connect, list_tools,
normalize, return the fixed message on an empty catalog, else build
arguments for the first tool, call it by name, and extract the response
text. Any exception propagates out. -/
def run_query (env : TransportBehavior) (query : String) : Except String String :=
  match env.connect with
  | Except.error e => Except.error e
  | Except.ok _ =>
    match env.listTools with
    | Except.error e => Except.error e
    | Except.ok tools =>
      match normalize_tool_list tools with
      | [] => Except.ok noToolsMsg
      | first_tool :: _ =>
        match build_arguments first_tool query with
        | Except.error e => Except.error e
        | Except.ok arguments =>
          match env.callTool (toolName first_tool) arguments with
          | Except.error e => Except.error e
          | Except.ok result => Except.ok (extract_response_text result)

/-- BaseMCPClient execute_query / HttpMCPClient execute_query: the try
body, with every exception caught and turned into the marker string
followed by str(e). -/
def execute_query (env : TransportBehavior) (query : String) : String :=
  match run_query env query with
  | Except.ok response_text => response_text
  | Except.error e => connectionErrorMarker ++ e

/-- What execute_query does once a first tool has been selected,
expressed as a function of that tool alone (with the same top-level
catch as execute_query). -/
def first_tool_call (env : TransportBehavior) (first_tool : MCPTool) (query : String) : String :=
  match build_arguments first_tool query with
  | Except.error e => connectionErrorMarker ++ e
  | Except.ok arguments =>
    match env.callTool (toolName first_tool) arguments with
    | Except.error e => connectionErrorMarker ++ e
    | Except.ok result => extract_response_text result

/-- A tool info dict as collected by get_http_mcp_tools_info and
get_stdio_mcp_tools_info. -/
structure ToolInfo where
  name : String
  description : String
  inputSchema : InputSchema
deriving DecidableEq, Repr

def defaultToolName : String := "unknown_tool"

def defaultToolDescription : String := "MCPサーバーから提供されるツール"

/-- One entry of the tools_info list: getattr with defaults for name,
description and inputSchema. -/
def toolInfoOf (tool : MCPTool) : ToolInfo :=
  { name := match tool.name with | some n => n | none => defaultToolName,
    description := match tool.description with | some d => d | none => defaultToolDescription,
    inputSchema := schemaOf tool }

/-- The shared try body of get_http_mcp_tools_info and
get_stdio_mcp_tools_info: list_tools (the fetch outcome), normalize the
shape, raising ValueError on an unrecognized one, and collect one info
dict per tool. -/
def tools_info_body (fetch : Except String ToolsResponse) :
    Except String (List ToolInfo) :=
  match fetch with
  | Except.error e => Except.error e
  | Except.ok tools =>
    match tools with
    | ToolsResponse.withToolsAttr l => Except.ok (l.map toolInfoOf)
    | ToolsResponse.bareList l => Except.ok (l.map toolInfoOf)
    | ToolsResponse.otherShape r => Except.error ("予期しないtools形式: " ++ r)

/-- The hard-coded fallback descriptor of get_http_mcp_tools_info. -/
def fallbackHttpToolInfo : ToolInfo :=
  { name := "mcp_security_search_http",
    description := "セキュリティ関連の専門的な検索・分析を行うMCPサーバーツール（Streamable HTTP方式）",
    inputSchema := emptySchema }

/-- get_http_mcp_tools_info: on any exception, return the single
fallback descriptor instead. -/
def get_http_mcp_tools_info (fetch : Except String ToolsResponse) : List ToolInfo :=
  match tools_info_body fetch with
  | Except.ok tools_info => tools_info
  | Except.error _ => [fallbackHttpToolInfo]

/-- get_stdio_mcp_tools_info: on any exception, return the empty list. -/
def get_stdio_mcp_tools_info (fetch : Except String ToolsResponse) : List ToolInfo :=
  match tools_info_body fetch with
  | Except.ok tools_info => tools_info
  | Except.error _ => []

def HTTP_SERVER_URL : String := "http://127.0.0.1:8001/mcp"

def STDIO_PYTHON_EXECUTABLE : String :=
  "D:\\vscode_projects\\sample_rag_mcp_server_stdio\\.venv\\Scripts\\python.exe"

def STDIO_SERVER_SCRIPT : String :=
  "D:\\vscode_projects\\sample_rag_mcp_server_stdio\\rag_mcp_server_stdio.py"

/-- The mcp_meta dict set on the shared http_mcp_query function. -/
structure HttpMeta where
  transport : String
  server_url : String
  tool_name : String
  inputSchema : InputSchema
deriving DecidableEq, Repr

/-- The mcp_meta dict set on the shared stdio_mcp_query function. -/
structure StdioMeta where
  transport : String
  server_script : String
  python_executable : String
  tool_name : String
  inputSchema : InputSchema
deriving DecidableEq, Repr

/-- A langchain Tool as built by the factories. Its func is the shared
module-level query function of its transport, so it is not part of the
per-tool value: the single meta slot of that shared function is
threaded through the build loop separately. -/
structure RegisteredTool where
  name : String
  description : String
deriving DecidableEq, Repr

/-- Character-wise lower-casing (the Python str.lower call; ASCII
letters are the ones that matter for the http check). -/
def toLowerStr (s : String) : String := ⟨s.data.map Char.toLower⟩

/-- needle is an initial segment of hay. -/
def startsWithChars : List Char → List Char → Bool
  | _, [] => true
  | [], _ :: _ => false
  | h :: hs, n :: ns => h == n && startsWithChars hs ns

/-- needle occurs somewhere inside hay. -/
def occursInChars (needle : List Char) : List Char → Bool
  | [] => startsWithChars [] needle
  | h :: hs => startsWithChars (h :: hs) needle || occursInChars needle hs

/-- needle occurs as a substring of hay (the Python in operator). -/
def containsSubstr (hay needle : String) : Bool :=
  occursInChars needle.data hay.data

/-- create_http_mcp_tools description rewrite: append the method note
when "http" does not occur in the lower-cased description. -/
def annotateHttpDescription (tool_description : String) : String :=
  if containsSubstr (toLowerStr tool_description) "http" then tool_description
  else tool_description ++ "（Streamable HTTP方式）"

/-- create_stdio_mcp_tools description rewrite: append the method note
when the description does not mention the stdio method. -/
def annotateStdioDescription (tool_description : String) : String :=
  if containsSubstr tool_description "標準入出力方式" then tool_description
  else tool_description ++ "（標準入出力方式）"

def mkHttpMeta (info : ToolInfo) : HttpMeta :=
  { transport := "http",
    server_url := HTTP_SERVER_URL,
    tool_name := info.name,
    inputSchema := info.inputSchema }

def mkStdioMeta (info : ToolInfo) : StdioMeta :=
  { transport := "stdio",
    server_script := STDIO_SERVER_SCRIPT,
    python_executable := STDIO_PYTHON_EXECUTABLE,
    tool_name := info.name,
    inputSchema := info.inputSchema }

/-- One iteration of the create_http_mcp_tools loop: overwrite the meta
attribute of the shared function, then append the Tool. -/
def http_tool_loop (state : List RegisteredTool × Option HttpMeta) (info : ToolInfo) :
    List RegisteredTool × Option HttpMeta :=
  (state.1 ++ [{ name := info.name, description := annotateHttpDescription info.description }],
   some (mkHttpMeta info))

/-- One iteration of the create_stdio_mcp_tools loop. -/
def stdio_tool_loop (state : List RegisteredTool × Option StdioMeta) (info : ToolInfo) :
    List RegisteredTool × Option StdioMeta :=
  (state.1 ++ [{ name := info.name, description := annotateStdioDescription info.description }],
   some (mkStdioMeta info))

def httpConnectFailMsg : String := "MCPサーバー（Streamable HTTP）に接続できません"

def stdioConnectFailMsg : String := "MCPサーバー（STDIO）に接続できません"

/-- create_http_mcp_tools: fetch tool infos (with the fallback), raise
RuntimeError when the list is empty, else run the build loop. The
result carries the created Tools and the final meta attribute of the
shared http_mcp_query function. -/
def create_http_mcp_tools (fetch : Except String ToolsResponse) :
    Except String (List RegisteredTool × Option HttpMeta) :=
  match get_http_mcp_tools_info fetch with
  | [] => Except.error httpConnectFailMsg
  | tools_info@(_ :: _) => Except.ok (tools_info.foldl http_tool_loop ([], none))

/-- create_stdio_mcp_tools: fetch tool infos (empty on any failure),
raise RuntimeError when the list is empty, else run the build loop. -/
def create_stdio_mcp_tools (fetch : Except String ToolsResponse) :
    Except String (List RegisteredTool × Option StdioMeta) :=
  match get_stdio_mcp_tools_info fetch with
  | [] => Except.error stdioConnectFailMsg
  | tools_info@(_ :: _) => Except.ok (tools_info.foldl stdio_tool_loop ([], none))

/-- The error raised by create_mcp_tools: a per-transport build failure
propagated as is, or the duplicate-name ValueError carrying the
duplicate_names list embedded in its message. -/
inductive RegistryError where
  | stdioFailure (msg : String)
  | httpFailure (msg : String)
  | duplicateNames (duplicate_names : List String)
deriving DecidableEq, Repr

def tool_names_of (mcp_tools : List RegisteredTool) : List String :=
  mcp_tools.map (fun t => t.name)

/-- duplicate_names of create_mcp_tools: every name whose count in the
aggregated name list exceeds one, kept with multiplicity. -/
def duplicate_names_of (mcp_tools : List RegisteredTool) : List String :=
  (tool_names_of mcp_tools).filter (fun n => 1 < (tool_names_of mcp_tools).count n)

/-- The duplicate check at the end of create_mcp_tools: raise when any
name repeats, else return the aggregated list. -/
def duplicate_name_check (mcp_tools : List RegisteredTool) :
    Except RegistryError (List RegisteredTool) :=
  if (duplicate_names_of mcp_tools).isEmpty then Except.ok mcp_tools
  else Except.error (RegistryError.duplicateNames (duplicate_names_of mcp_tools))

/-- create_mcp_tools: build the stdio tools (re-raising any failure),
then the http tools (re-raising any failure), concatenate, and run the
duplicate-name check. -/
def create_mcp_tools (stdioFetch httpFetch : Except String ToolsResponse) :
    Except RegistryError (List RegisteredTool) :=
  match create_stdio_mcp_tools stdioFetch with
  | Except.error e => Except.error (RegistryError.stdioFailure e)
  | Except.ok (stdio_tools, _) =>
    match create_http_mcp_tools httpFetch with
    | Except.error e => Except.error (RegistryError.httpFailure e)
    | Except.ok (http_tools, _) =>
      duplicate_name_check (stdio_tools ++ http_tools)

/-
Specification-side definitions and concrete inputs used by the
theorems below.
-/

/-- The target-parameter selection chain as the specification words it:
the first element of required when required is non-empty (regardless of
properties); else the first name of the fixed priority list that is a
key of properties; else the first property key when properties is
non-empty; else no target exists. -/
def specTargetParameter (schema : InputSchema) : Option String :=
  match schema.required with
  | target :: _ => some target
  | [] =>
    match commonParams.find? (fun param => schema.properties.contains param) with
    | some target => some target
    | none => schema.properties.head?

/-- A transport whose connection attempt raises. -/
def connectFailEnv : TransportBehavior :=
  ⟨Except.error "boom", Except.ok (ToolsResponse.bareList []), fun _ _ => Except.ok ⟨[]⟩⟩

/-- A tool whose schema declares two required parameters and two
properties. -/
def multiParamTool : MCPTool :=
  ⟨some "multi", some "multi tool", some ⟨["a", "b"], ["x", "y"]⟩, "multi"⟩

def firstToolX : MCPTool := ⟨some "x", some "dx", some ⟨["query"], []⟩, "x"⟩

def secondToolY : MCPTool := ⟨some "y", some "dy", some ⟨["query"], []⟩, "y"⟩

/-- A transport advertising two tools whose call_tool echoes the name
under which it was invoked. -/
def twoToolEnv : TransportBehavior :=
  ⟨Except.ok (), Except.ok (ToolsResponse.withToolsAttr [firstToolX, secondToolY]),
   fun name _ => Except.ok ⟨[ContentBlock.textBlock name]⟩⟩

def dupStdioTool : MCPTool := ⟨some "search", some "stdio search", some emptySchema, "s1"⟩

def dupHttpTool : MCPTool := ⟨some "search", some "http search", some emptySchema, "s2"⟩

def dupStdioFetch : Except String ToolsResponse :=
  Except.ok (ToolsResponse.bareList [dupStdioTool])

def dupHttpFetch : Except String ToolsResponse :=
  Except.ok (ToolsResponse.bareList [dupHttpTool])

def bugToolInfoA : ToolInfo := { name := "a", description := "tool a", inputSchema := emptySchema }

def bugToolInfoB : ToolInfo := { name := "b", description := "tool b", inputSchema := emptySchema }

def bugMcpToolA : MCPTool := ⟨some "a", some "tool a", some ⟨["query"], []⟩, "a"⟩

def bugMcpToolB : MCPTool := ⟨some "b", some "tool b", some ⟨["query"], []⟩, "b"⟩

/-- The call-time transport seen by any of the registered actions built
from the two-tool catalog: the same two tools are advertised again and
call_tool echoes the name under which it was invoked. -/
def bugCallTimeEnv : TransportBehavior :=
  ⟨Except.ok (), Except.ok (ToolsResponse.bareList [bugMcpToolA, bugMcpToolB]),
   fun name _ => Except.ok ⟨[ContentBlock.textBlock name]⟩⟩

/-
Helper lemmas.
-/

lemma http_loop_tools (infos : List ToolInfo) (acc : List RegisteredTool) (m : Option HttpMeta) :
    (infos.foldl http_tool_loop (acc, m)).1 =
      acc ++ infos.map (fun info =>
        { name := info.name, description := annotateHttpDescription info.description }) := by
  induction infos generalizing acc m with
  | nil => simp
  | cons i is ih =>
    simp only [List.foldl_cons, List.map_cons]
    rw [show List.foldl http_tool_loop (http_tool_loop (acc, m) i) is
          = List.foldl http_tool_loop
              (acc ++ [{ name := i.name, description := annotateHttpDescription i.description }],
               some (mkHttpMeta i)) is from rfl]
    rw [ih]
    simp

lemma stdio_loop_tools (infos : List ToolInfo) (acc : List RegisteredTool) (m : Option StdioMeta) :
    (infos.foldl stdio_tool_loop (acc, m)).1 =
      acc ++ infos.map (fun info =>
        { name := info.name, description := annotateStdioDescription info.description }) := by
  induction infos generalizing acc m with
  | nil => simp
  | cons i is ih =>
    simp only [List.foldl_cons, List.map_cons]
    rw [show List.foldl stdio_tool_loop (stdio_tool_loop (acc, m) i) is
          = List.foldl stdio_tool_loop
              (acc ++ [{ name := i.name, description := annotateStdioDescription i.description }],
               some (mkStdioMeta i)) is from rfl]
    rw [ih]
    simp

lemma run_query_normalized (env : TransportBehavior) (query : String)
    (tools : ToolsResponse)
    (hc : env.connect = Except.ok ())
    (hl : env.listTools = Except.ok tools) :
    run_query env query =
      match normalize_tool_list tools with
      | [] => Except.ok noToolsMsg
      | first_tool :: _ =>
        match build_arguments first_tool query with
        | Except.error e => Except.error e
        | Except.ok arguments =>
          match env.callTool (toolName first_tool) arguments with
          | Except.error e => Except.error e
          | Except.ok result => Except.ok (extract_response_text result) := by
  unfold run_query
  rw [hc, hl]

/-
Claim theorems.
-/

/-- Claim C1: build_arguments selects its single target parameter by the
exact first-match-wins chain of the specification (first required
parameter; else the first of the fixed priority list present in
properties; else the first property key; else the schema-resolution
error) and maps the chosen parameter to the raw query string. -/
theorem c1_build_arguments_chain (tool : MCPTool) (query : String) :
    build_arguments tool query =
      match specTargetParameter (schemaOf tool) with
      | some target => Except.ok [(target, query)]
      | none => Except.error schemaResolutionErrorMsg := by
  unfold build_arguments
  rcases schemaOf tool with ⟨req, props⟩
  cases req with
  | cons p ps => rfl
  | nil =>
    unfold build_arguments_from specTargetParameter
    cases commonParams.find? (fun param => props.contains param) with
    | some q => rfl
    | none =>
      cases props with
      | nil => rfl
      | cons r rs => rfl

/-- Claim C2: an exception raised at any point of the try body of
execute_query (here: anywhere inside run_query, connect included)
becomes a normal return of the fixed marker string followed by the
error description; execute_query itself is a total String function and
never raises. -/
theorem c2_execute_query_never_raises (env : TransportBehavior) (query e : String) :
    (env.connect = Except.error e → run_query env query = Except.error e)
    ∧ (run_query env query = Except.error e →
        execute_query env query = connectionErrorMarker ++ e) := by
  constructor
  · intro h
    unfold run_query
    rw [h]
  · intro h
    unfold execute_query
    rw [h]

/-- Witness for claim C2 at a transport that raises on connect. -/
theorem c2_execute_query_never_raises_witness :
    execute_query connectFailEnv "q" = "MCPサーバーへの接続エラー: boom" := by
  have h := c2_execute_query_never_raises connectFailEnv "q" "boom"
  exact h.2 (h.1 rfl)

/-- Claim C3: a failed HTTP catalog fetch (a raised exception, or an
unrecognized shape which raises inside the try body) yields exactly the
one synthetic fallback descriptor with its fixed name and empty schema,
so create_http_mcp_tools still returns one action; a failed or empty
stdio fetch makes create_stdio_mcp_tools raise, and create_mcp_tools
propagates that, aborting the whole build with zero actions. -/
theorem c3_asymmetric_registry_fallback (e r : String)
    (httpFetch : Except String ToolsResponse) :
    get_http_mcp_tools_info (Except.error e) = [fallbackHttpToolInfo]
    ∧ get_http_mcp_tools_info (Except.ok (ToolsResponse.otherShape r)) = [fallbackHttpToolInfo]
    ∧ fallbackHttpToolInfo.name = "mcp_security_search_http"
    ∧ fallbackHttpToolInfo.inputSchema = emptySchema
    ∧ create_http_mcp_tools (Except.error e) =
        Except.ok ([{ name := fallbackHttpToolInfo.name,
                      description := fallbackHttpToolInfo.description }],
                   some (mkHttpMeta fallbackHttpToolInfo))
    ∧ create_stdio_mcp_tools (Except.error e) = Except.error stdioConnectFailMsg
    ∧ create_stdio_mcp_tools (Except.ok (ToolsResponse.bareList [])) =
        Except.error stdioConnectFailMsg
    ∧ create_mcp_tools (Except.error e) httpFetch =
        Except.error (RegistryError.stdioFailure stdioConnectFailMsg) :=
  ⟨rfl, rfl, rfl, rfl, rfl, rfl, rfl, rfl⟩

/-- Claim C4: normalize_tool_list returns the member list of a wrapper
object and a bare list unchanged (same ordered sequence either way) and
returns the empty list on any other shape, without raising. -/
theorem c4_normalize_tool_list_shapes (l : List MCPTool) (r : String) :
    normalize_tool_list (ToolsResponse.withToolsAttr l) =
      normalize_tool_list (ToolsResponse.bareList l)
    ∧ normalize_tool_list (ToolsResponse.withToolsAttr l) = l
    ∧ normalize_tool_list (ToolsResponse.otherShape r) = [] :=
  ⟨rfl, rfl, rfl⟩

/-- Claim C5: extract_response_text returns the fixed empty-response
sentinel on empty content, and otherwise joins, in block order, each
block text payload (or string rendering) with newline separators; two
text blocks a and b yield the string a newline b. -/
theorem c5_extract_response_text_spec (blocks : List ContentBlock) :
    (blocks = [] → extract_response_text ⟨blocks⟩ = "MCPサーバーからの応答が空でした。")
    ∧ (blocks ≠ [] →
        extract_response_text ⟨blocks⟩ = String.intercalate "\n" (blocks.map blockText))
    ∧ extract_response_text ⟨[ContentBlock.textBlock "a", ContentBlock.textBlock "b"]⟩
        = "a\nb" := by
  refine ⟨?_, ?_, rfl⟩
  · intro h
    subst h
    rfl
  · intro h
    cases blocks with
    | nil => exact absurd rfl h
    | cons b bs => rfl

/-- Witness for claim C5 at the empty content list. -/
theorem c5_extract_response_text_spec_witness :
    extract_response_text ⟨[]⟩ = "MCPサーバーからの応答が空でした。" :=
  (c5_extract_response_text_spec []).1 rfl

/-- Claim C6: within one execute_query run over a transport whose
connection and catalog fetch succeed, an empty normalized catalog gives
the fixed no-tools message as a successful result with no tool call,
and a non-empty catalog makes the run depend only on the first tool of
the catalog, invoked by its name (no ranking or query-based
selection). -/
theorem c6_first_tool_policy (env : TransportBehavior) (query : String)
    (tools : ToolsResponse)
    (hc : env.connect = Except.ok ())
    (hl : env.listTools = Except.ok tools) :
    (normalize_tool_list tools = [] → execute_query env query = noToolsMsg)
    ∧ (∀ first_tool rest, normalize_tool_list tools = first_tool :: rest →
        execute_query env query = first_tool_call env first_tool query) := by
  constructor
  · intro h
    unfold execute_query
    rw [run_query_normalized env query tools hc hl, h]
  · intro first_tool rest h
    unfold execute_query
    rw [run_query_normalized env query tools hc hl, h]
    show (match
        (match build_arguments first_tool query with
         | Except.error e => Except.error e
         | Except.ok arguments =>
           match env.callTool (toolName first_tool) arguments with
           | Except.error e => Except.error e
           | Except.ok result => Except.ok (extract_response_text result)) with
      | Except.ok response_text => response_text
      | Except.error e => connectionErrorMarker ++ e)
      = first_tool_call env first_tool query
    unfold first_tool_call
    cases build_arguments first_tool query with
    | error e => rfl
    | ok arguments =>
      show (match
          (match env.callTool (toolName first_tool) arguments with
           | Except.error e => Except.error e
           | Except.ok result => Except.ok (extract_response_text result)) with
        | Except.ok response_text => response_text
        | Except.error e => connectionErrorMarker ++ e)
        = match env.callTool (toolName first_tool) arguments with
          | Except.error e => connectionErrorMarker ++ e
          | Except.ok result => extract_response_text result
      cases env.callTool (toolName first_tool) arguments with
      | error e => rfl
      | ok result => rfl

/-- Witness for claim C6 at a two-tool catalog: the run reduces to a
call of the first tool, and invoking it returns the text the server
echoed for the first tool name. -/
theorem c6_first_tool_policy_witness :
    execute_query twoToolEnv "hello" = first_tool_call twoToolEnv firstToolX "hello"
    ∧ first_tool_call twoToolEnv firstToolX "hello" = "x" := by
  have h := c6_first_tool_policy twoToolEnv "hello"
      (ToolsResponse.withToolsAttr [firstToolX, secondToolY]) rfl rfl
  exact ⟨h.2 firstToolX [secondToolY] rfl, rfl⟩

/-- Claim C7: once the per-transport builds succeed, create_mcp_tools
runs the duplicate-name check on the concatenated list: when no name
repeats it returns the concatenation, and when any name repeats it
raises an error carrying the duplicate-name list, which names every
duplicated tool name, and returns no actions. -/
theorem c7_duplicate_name_policy (sf hf : Except String ToolsResponse)
    (st ht : List RegisteredTool) (ms : Option StdioMeta) (mh : Option HttpMeta)
    (hs : create_stdio_mcp_tools sf = Except.ok (st, ms))
    (hh : create_http_mcp_tools hf = Except.ok (ht, mh)) :
    create_mcp_tools sf hf = duplicate_name_check (st ++ ht)
    ∧ (duplicate_names_of (st ++ ht) = [] → create_mcp_tools sf hf = Except.ok (st ++ ht))
    ∧ (duplicate_names_of (st ++ ht) ≠ [] →
        create_mcp_tools sf hf =
          Except.error (RegistryError.duplicateNames (duplicate_names_of (st ++ ht)))
        ∧ ∀ n, 1 < (tool_names_of (st ++ ht)).count n →
            n ∈ duplicate_names_of (st ++ ht)) := by
  have hcreate : create_mcp_tools sf hf = duplicate_name_check (st ++ ht) := by
    unfold create_mcp_tools
    rw [hs, hh]
  refine ⟨hcreate, ?_, ?_⟩
  · intro hd
    rw [hcreate]
    unfold duplicate_name_check
    rw [hd]
    rfl
  · intro hd
    constructor
    · rw [hcreate]
      unfold duplicate_name_check
      cases hdup : duplicate_names_of (st ++ ht) with
      | nil => exact absurd hdup hd
      | cons d ds => rfl
    · intro n hn
      have hmem : n ∈ tool_names_of (st ++ ht) := by
        by_contra hnm
        rw [List.count_eq_zero_of_not_mem hnm] at hn
        exact absurd hn (by decide)
      unfold duplicate_names_of
      exact List.mem_filter.mpr ⟨hmem, decide_eq_true hn⟩

/-- Witness for claim C7 at two transports each contributing a tool
named search: the build fails naming search as duplicated. -/
theorem c7_duplicate_name_policy_witness :
    create_mcp_tools dupStdioFetch dupHttpFetch =
      Except.error (RegistryError.duplicateNames ["search", "search"]) := by
  have h := c7_duplicate_name_policy dupStdioFetch dupHttpFetch
      [{ name := "search", description := "stdio search（標準入出力方式）" }]
      [{ name := "search", description := "http search" }]
      (some (mkStdioMeta { name := "search", description := "stdio search",
                           inputSchema := emptySchema }))
      (some (mkHttpMeta { name := "search", description := "http search",
                          inputSchema := emptySchema }))
      rfl rfl
  exact (h.2.2 (by decide)).1

/-- Claim C8 evaluated at a two-tool HTTP catalog: the build loop
creates actions named a and b, but the single meta slot of the shared
query function ends holding the metadata of tool b (so the metadata
seen through action a does not name a), and running the shared query
function that every action invokes calls tool a, the first of the
call-time catalog, regardless of which action was invoked. -/
theorem c8_shared_meta_and_first_tool_bug :
    ([bugToolInfoA, bugToolInfoB].foldl http_tool_loop ([], none)).1.map (fun t => t.name)
        = ["a", "b"]
    ∧ ([bugToolInfoA, bugToolInfoB].foldl http_tool_loop ([], none)).2
        = some (mkHttpMeta bugToolInfoB)
    ∧ (mkHttpMeta bugToolInfoB).tool_name = "b"
    ∧ execute_query bugCallTimeEnv "q" = "a" :=
  ⟨rfl, rfl, rfl, rfl⟩

/-- Claim C9: whenever argument synthesis succeeds the produced payload
has exactly one key, whatever the schema declares. -/
theorem c9_payload_single_key (tool : MCPTool) (query : String)
    (args : List (String × String)) :
    build_arguments tool query = Except.ok args → args.length = 1 := by
  intro h
  unfold build_arguments build_arguments_from at h
  split at h
  · injection h with h2
    subst h2
    rfl
  · split at h
    · injection h with h2
      subst h2
      rfl
    · split at h
      · injection h with h2
        subst h2
        rfl
      · exact Except.noConfusion h

/-- Witness for claim C9 at a schema with two required parameters and
two properties. -/
theorem c9_payload_single_key_witness :
    build_arguments multiParamTool "hello" = Except.ok [("a", "hello")]
    ∧ ([("a", "hello")] : List (String × String)).length = 1 :=
  ⟨rfl, c9_payload_single_key multiParamTool "hello" [("a", "hello")] rfl⟩

/-- Claim C10: the registry build loops keep every advertised tool name
unchanged, and leave a description unchanged when it already mentions
the transport method (http in the lower-cased description for the HTTP
loop, the stdio method string for the stdio loop) while otherwise
appending the fixed transport-method annotation. -/
theorem c10_name_and_description_policy (infos : List ToolInfo) :
    ((infos.foldl http_tool_loop ([], none)).1.map (fun t => t.name)
        = infos.map (fun i => i.name))
    ∧ ((infos.foldl stdio_tool_loop ([], none)).1.map (fun t => t.name)
        = infos.map (fun i => i.name))
    ∧ ((infos.foldl http_tool_loop ([], none)).1.map (fun t => t.description)
        = infos.map (fun i =>
            if containsSubstr (toLowerStr i.description) "http" then i.description
            else i.description ++ "（Streamable HTTP方式）"))
    ∧ ((infos.foldl stdio_tool_loop ([], none)).1.map (fun t => t.description)
        = infos.map (fun i =>
            if containsSubstr i.description "標準入出力方式" then i.description
            else i.description ++ "（標準入出力方式）")) := by
  refine ⟨?_, ?_, ?_, ?_⟩ <;>
    simp [http_loop_tools, stdio_loop_tools, annotateHttpDescription,
      annotateStdioDescription, List.map_map, Function.comp]

end MCPSpec
